import Mathlib

/-!
Shallow embedding of the VerifyPulse diagnostic pipeline runtime
(quality_agent/core/native_test_runner.py, logger.py, rag_pipeline.py,
quality_agent/llm/client.py, verifypulse/integrations/skyflow_client.py,
verifypulse/integrations/redis_client.py).

Python dictionaries / JSON payloads are modelled by the inductive type
`Json`; the network is modelled by explicit oracles describing what each
HTTP exchange would return, and every runner is instrumented so that the
list of actually-issued network requests is part of its result.
-/

/-- JSON values as produced by Python `json` / `httpx.Response.json()`.
Numbers are restricted to integers, which is all this code base puts in
its payloads. -/
inductive Json where
  | null : Json
  | bool (b : Bool) : Json
  | num (n : Int) : Json
  | str (s : String) : Json
  | arr (xs : List Json) : Json
  | obj (fields : List (String × Json)) : Json


/-- Python dict lookup `d.get(k)` (first binding wins, as keys are unique
in any dict the source builds). -/
def jGet (j : Json) (k : String) : Option Json :=
  match j with
  | .obj fields => fields.lookup k
  | _ => none

/-- `log.get(k, default)` where the caller treats the value as a string. -/
def jStrOr (j : Json) (k : String) (dflt : String) : String :=
  match jGet j k with
  | some (.str s) => s
  | _ => dflt

/-- Python truthiness of a JSON value (`if body:` etc.). -/
def jTruthy : Json → Bool
  | .null => false
  | .bool b => b
  | .num n => n != 0
  | .str s => s != ""
  | .arr xs => !xs.isEmpty
  | .obj fields => !fields.isEmpty

/-- `isinstance(x, (dict, list))` — the check behind `requires_json`. -/
def isStructured : Json → Bool
  | .obj _ => true
  | .arr _ => true
  | _ => false

/-- Python `needle in hay` on strings. -/
def strContains (hay needle : String) : Bool :=
  hay.data.tails.any fun t => needle.data.isPrefixOf t

/-- Python `s.startswith(p)`. -/
def pyStartsWith (s p : String) : Bool :=
  p.data.isPrefixOf s.data

/-- Python `s.endswith(p)`. -/
def pyEndsWith (s p : String) : Bool :=
  p.data.isSuffixOf s.data

/-- Python `s.lower()` (ASCII, which is all the source compares). -/
def pyLower (s : String) : String :=
  ⟨s.data.map Char.toLower⟩

/-- Python `s.upper()` (ASCII, which is all the source compares). -/
def pyUpper (s : String) : String :=
  ⟨s.data.map Char.toUpper⟩

/-- Python `s.rstrip("/")` as used on the base URL. -/
def rstripSlash (s : String) : String :=
  ⟨(s.data.reverse.dropWhile (fun c => c = '/')).reverse⟩

/-! ## Data model of `native_test_runner.py` -/

/-- `RequestRecord` — one HTTP interaction (native_test_runner.py). -/
structure RequestRecord where
  method : String
  url : String
  request_headers : List (String × String)
  request_body : Option Json
  status_code : Nat
  response_headers : List (String × String)
  response_body : Json


/-- `TestFailure` — a failing test in the suite. -/
structure TestFailure where
  test_name : String
  reason : String
  failed_record : RequestRecord


/-- `TestRunResult` — overall result of a test run. -/
structure TestRunResult where
  success : Bool
  request_history : List RequestRecord
  failure : Option TestFailure


/-- One declarative test case (shape produced by `load_test_cases`). -/
structure TestCase where
  name : String
  method : String
  endpoint : String
  payload : Option Json
  expected_status : List Nat
  requires_json : Bool


/-- The str()/repr() rendering of a Python exception raised during a
request; the record stores `str(exc)`, the failure reason interpolates
`{exc!r}`. -/
structure ExcInfo where
  toStr : String
  reprStr : String


/-- What `httpx` observed for a request that reached the wire and got an
HTTP response: the echo of the request actually sent plus the response.
`respBody` is `response.json()` when it parses, else `.str` of the raw
text (`record_and_return`'s try/except). -/
structure HttpResp where
  reqMethod : String
  reqUrl : String
  reqHeaders : List (String × String)
  reqBody : Option String
  statusCode : Nat
  respHeaders : List (String × String)
  respBody : Json


/-- Outcome of attempting one HTTP request. -/
inductive HttpOutcome where
  | resp (r : HttpResp) : HttpOutcome
  | exc (e : ExcInfo) : HttpOutcome


/-- `record_and_return` with a response: builds the record from the echo
of the request and the response. -/
def respRecord (r : HttpResp) : RequestRecord :=
  { method := r.reqMethod
    url := r.reqUrl
    request_headers := r.reqHeaders
    request_body := r.reqBody.map Json.str
    status_code := r.statusCode
    response_headers := r.respHeaders
    response_body := r.respBody }

/-- `record_and_return` with `response=None` and an exception: the
status-code-0 sentinel record. -/
def excRecord (method url : String) (payload : Option Json) (msg : String) : RequestRecord :=
  { method := method
    url := url
    request_headers := []
    request_body := payload
    status_code := 0
    response_headers := []
    response_body := .str msg }

/-- Method dispatch: `method.upper()` against GET/POST/PUT/DELETE. -/
def supportedMethod (m : String) : Bool :=
  pyUpper m = "GET" || pyUpper m = "POST" || pyUpper m = "PUT" || pyUpper m = "DELETE"

/-- `str(ValueError(msg))` is `msg`; `repr(ValueError(msg))` for the
quote-free messages this code produces. -/
def valueErrorRepr (msg : String) : String :=
  "ValueError(" ++ "\x27" ++ msg ++ "\x27" ++ ")"

/-- The exception info for the `Unsupported HTTP method` ValueError. -/
def unsupportedMethodExc (m : String) : ExcInfo :=
  { toStr := "Unsupported HTTP method: " ++ m
    reprStr := valueErrorRepr ("Unsupported HTTP method: " ++ m) }

/-- Reason string of the status-code assertion:
`f"Expected {expected_str} from {endpoint}, got {status}"`. -/
def expectedStatusReason (expected : List Nat) (endpoint : String) (got : Nat) : String :=
  "Expected " ++ String.intercalate " or " (expected.map toString)
    ++ " from " ++ endpoint ++ ", got " ++ toString got

/-- Reason string of the transport-exception branch:
`f"Exception calling {endpoint}: {exc!r}"`. -/
def exceptionReason (endpoint : String) (e : ExcInfo) : String :=
  "Exception calling " ++ endpoint ++ ": " ++ e.reprStr

/-- The `TestFailure` a given test case produces from a given network
outcome, replaying the branch structure of the run loop.  Only
meaningful for a case that does fail. -/
def caseFailure (baseUrl : String) (tc : TestCase) (o : HttpOutcome) : TestFailure :=
  let url := rstripSlash baseUrl ++ tc.endpoint
  if supportedMethod tc.method then
    match o with
    | .resp r =>
      if !(tc.expected_status.contains r.statusCode) then
        { test_name := tc.name
          reason := expectedStatusReason tc.expected_status tc.endpoint r.statusCode
          failed_record := respRecord r }
      else
        { test_name := tc.name
          reason := "Expected JSON response from " ++ tc.endpoint
          failed_record := respRecord r }
    | .exc e =>
      { test_name := tc.name
        reason := exceptionReason tc.endpoint e
        failed_record := excRecord tc.method url tc.payload e.toStr }
  else
    let e := unsupportedMethodExc tc.method
    { test_name := tc.name
      reason := exceptionReason tc.endpoint e
      failed_record := excRecord tc.method url tc.payload e.toStr }

/-- The record a passing case appends to the history. -/
def passRecord (o : HttpOutcome) : RequestRecord :=
  match o with
  | .resp r => respRecord r
  | .exc e => excRecord "" "" none e.toStr

/-- Does this case pass under this network outcome?  Mirrors the run
loop: the method must dispatch, the response must arrive, its status
must be in the expected set, and the JSON requirement must hold. -/
def casePasses (tc : TestCase) (o : HttpOutcome) : Bool :=
  match o with
  | .resp r =>
    supportedMethod tc.method && tc.expected_status.contains r.statusCode
      && (!tc.requires_json || isStructured r.respBody)
  | .exc _ => false

/-- The loop of `run_native_tests`, one test case at a time.  `idx` is
the position of the current case in the full suite; `hist` is the
accumulated request history; `issued` is the instrumentation: the
indices of the cases for which an HTTP request was actually handed to
the client. -/
def runAux (baseUrl : String) (oracle : Nat → HttpOutcome) :
    List TestCase → Nat → List RequestRecord → List Nat → TestRunResult × List Nat
  | [], _, hist, issued => (⟨true, hist, none⟩, issued)
  | tc :: rest, idx, hist, issued =>
    let url := rstripSlash baseUrl ++ tc.endpoint
    if supportedMethod tc.method then
      let issued1 := issued ++ [idx]
      match oracle idx with
      | .resp r =>
        let record := respRecord r
        let hist1 := hist ++ [record]
        if !(tc.expected_status.contains r.statusCode) then
          (⟨false, hist1,
            some { test_name := tc.name
                   reason := expectedStatusReason tc.expected_status tc.endpoint r.statusCode
                   failed_record := record }⟩, issued1)
        else if tc.requires_json && !(isStructured r.respBody) then
          (⟨false, hist1,
            some { test_name := tc.name
                   reason := "Expected JSON response from " ++ tc.endpoint
                   failed_record := record }⟩, issued1)
        else
          runAux baseUrl oracle rest (idx + 1) hist1 issued1
      | .exc e =>
        let record := excRecord tc.method url tc.payload e.toStr
        (⟨false, hist ++ [record],
          some { test_name := tc.name
                 reason := exceptionReason tc.endpoint e
                 failed_record := record }⟩, issued1)
    else
      let e := unsupportedMethodExc tc.method
      let record := excRecord tc.method url tc.payload e.toStr
      (⟨false, hist ++ [record],
        some { test_name := tc.name
               reason := exceptionReason tc.endpoint e
               failed_record := record }⟩, issued)

/-- `run_native_tests(api_base_url)`, parametrised by the loaded test
suite and by the network oracle.  Returns the `TestRunResult` together
with the instrumented list of issued request indices. -/
def run_native_tests (baseUrl : String) (tcs : List TestCase) (oracle : Nat → HttpOutcome) :
    TestRunResult × List Nat :=
  runAux baseUrl oracle tcs 0 [] []

/-- The fixed suite returned by `load_test_cases()` in test_cases.py. -/
def load_test_cases : List TestCase :=
  [ { name := "health_check"
      method := "GET"
      endpoint := "/health"
      payload := none
      expected_status := [200]
      requires_json := false }
  , { name := "login_requirements"
      method := "POST"
      endpoint := "/login"
      payload := some (.obj [("username", .str "test_user"), ("password", .str "wrong_password")])
      expected_status := [200, 401]
      requires_json := true } ]

/-! ## Step lemmas for the run loop -/

theorem runAux_nil (baseUrl : String) (oracle : Nat → HttpOutcome)
    (idx : Nat) (hist : List RequestRecord) (issued : List Nat) :
    runAux baseUrl oracle [] idx hist issued = (⟨true, hist, none⟩, issued) := rfl

theorem runAux_cons_unsupported (baseUrl : String) (oracle : Nat → HttpOutcome)
    (tc : TestCase) (rest : List TestCase) (idx : Nat)
    (hist : List RequestRecord) (issued : List Nat)
    (hsm : supportedMethod tc.method = false) :
    runAux baseUrl oracle (tc :: rest) idx hist issued =
      (⟨false,
        hist ++ [(caseFailure baseUrl tc (oracle idx)).failed_record],
        some (caseFailure baseUrl tc (oracle idx))⟩, issued) := by
  simp [runAux, caseFailure, hsm]

theorem runAux_cons_exc (baseUrl : String) (oracle : Nat → HttpOutcome)
    (tc : TestCase) (rest : List TestCase) (idx : Nat)
    (hist : List RequestRecord) (issued : List Nat) (e : ExcInfo)
    (hsm : supportedMethod tc.method = true) (ho : oracle idx = .exc e) :
    runAux baseUrl oracle (tc :: rest) idx hist issued =
      (⟨false,
        hist ++ [(caseFailure baseUrl tc (oracle idx)).failed_record],
        some (caseFailure baseUrl tc (oracle idx))⟩, issued ++ [idx]) := by
  simp [runAux, caseFailure, hsm, ho]

theorem runAux_cons_badstatus (baseUrl : String) (oracle : Nat → HttpOutcome)
    (tc : TestCase) (rest : List TestCase) (idx : Nat)
    (hist : List RequestRecord) (issued : List Nat) (r : HttpResp)
    (hsm : supportedMethod tc.method = true) (ho : oracle idx = .resp r)
    (hc : tc.expected_status.contains r.statusCode = false) :
    runAux baseUrl oracle (tc :: rest) idx hist issued =
      (⟨false,
        hist ++ [(caseFailure baseUrl tc (oracle idx)).failed_record],
        some (caseFailure baseUrl tc (oracle idx))⟩, issued ++ [idx]) := by
  have hc2 : r.statusCode ∉ tc.expected_status := by simpa using hc
  simp [runAux, caseFailure, hsm, ho, hc2]

theorem runAux_cons_badjson (baseUrl : String) (oracle : Nat → HttpOutcome)
    (tc : TestCase) (rest : List TestCase) (idx : Nat)
    (hist : List RequestRecord) (issued : List Nat) (r : HttpResp)
    (hsm : supportedMethod tc.method = true) (ho : oracle idx = .resp r)
    (hc : tc.expected_status.contains r.statusCode = true)
    (hrq : tc.requires_json = true) (hst : isStructured r.respBody = false) :
    runAux baseUrl oracle (tc :: rest) idx hist issued =
      (⟨false,
        hist ++ [(caseFailure baseUrl tc (oracle idx)).failed_record],
        some (caseFailure baseUrl tc (oracle idx))⟩, issued ++ [idx]) := by
  have hc2 : r.statusCode ∈ tc.expected_status := by simpa using hc
  simp [runAux, caseFailure, hsm, ho, hc2, hrq, hst]

theorem runAux_cons_pass (baseUrl : String) (oracle : Nat → HttpOutcome)
    (tc : TestCase) (rest : List TestCase) (idx : Nat)
    (hist : List RequestRecord) (issued : List Nat) (r : HttpResp)
    (hsm : supportedMethod tc.method = true) (ho : oracle idx = .resp r)
    (hc : tc.expected_status.contains r.statusCode = true)
    (hjson : (tc.requires_json && !(isStructured r.respBody)) = false) :
    runAux baseUrl oracle (tc :: rest) idx hist issued =
      runAux baseUrl oracle rest (idx + 1) (hist ++ [respRecord r]) (issued ++ [idx]) := by
  have hc2 : r.statusCode ∈ tc.expected_status := by simpa using hc
  have hj2 : ¬(tc.requires_json = true ∧ isStructured r.respBody = false) := by
    cases hq : tc.requires_json <;> cases hs : isStructured r.respBody <;> simp_all
  simp [runAux, hsm, ho, hc2, hj2]

/-- Placeholder used with `List.getD`; all uses are guarded by
in-bounds hypotheses. -/
def emptyTestCase : TestCase :=
  { name := "", method := "", endpoint := "", payload := none
    expected_status := [], requires_json := false }

theorem range_succ_map {α : Type} (f : Nat → α) (n : Nat) :
    (List.range (n + 1)).map f = f 0 :: (List.range n).map (fun j => f (j + 1)) := by
  rw [List.range_succ_eq_map, List.map_cons, List.map_map]
  rfl

theorem range_map_shift_pass (oracle : Nat → HttpOutcome) (idx n : Nat) :
    (List.range (n + 1)).map (fun j => passRecord (oracle (idx + j))) =
      passRecord (oracle idx) ::
        (List.range n).map (fun j => passRecord (oracle (idx + 1 + j))) := by
  rw [range_succ_map (fun j => passRecord (oracle (idx + j))) n]
  simp only [Nat.add_zero]
  congr 1
  apply List.map_congr_left
  intro a _
  congr 2
  omega

theorem range_map_shift_idx (idx n : Nat) :
    (List.range (n + 1)).map (fun j => idx + j) =
      idx :: (List.range n).map (fun j => idx + 1 + j) := by
  rw [range_succ_map (fun j => idx + j) n]
  simp only [Nat.add_zero]
  congr 1
  apply List.map_congr_left
  intro a _
  omega

/-- If every test case passes, the loop consumes the whole suite,
appends one record per case, issues one request per case, and reports
success. -/
theorem runAux_all_pass (baseUrl : String) (oracle : Nat → HttpOutcome) :
    ∀ (tcs : List TestCase) (idx : Nat) (hist : List RequestRecord) (issued : List Nat),
    (∀ j, j < tcs.length → casePasses (tcs.getD j emptyTestCase) (oracle (idx + j)) = true) →
    runAux baseUrl oracle tcs idx hist issued =
      (⟨true, hist ++ (List.range tcs.length).map (fun j => passRecord (oracle (idx + j))), none⟩,
       issued ++ (List.range tcs.length).map (fun j => idx + j)) := by
  intro tcs
  induction tcs with
  | nil => intro idx hist issued _; simp [runAux_nil]
  | cons tc rest ih =>
    intro idx hist issued hp
    have h0 : casePasses tc (oracle idx) = true := by
      have := hp 0 (by simp)
      simpa using this
    cases ho : oracle idx with
    | exc e => rw [ho] at h0; simp [casePasses] at h0
    | resp r =>
      rw [ho] at h0
      simp only [casePasses, Bool.and_eq_true] at h0
      obtain ⟨⟨hsm, hc⟩, hj⟩ := h0
      have hjB : (tc.requires_json && !(isStructured r.respBody)) = false := by
        cases hq : tc.requires_json <;> cases hs : isStructured r.respBody <;> simp_all
      have hp2 : ∀ j, j < rest.length →
          casePasses (rest.getD j emptyTestCase) (oracle (idx + 1 + j)) = true := by
        intro j hj2
        have := hp (j + 1) (by simpa using Nat.succ_lt_succ hj2)
        have e1 : idx + (j + 1) = idx + 1 + j := by omega
        simpa [e1] using this
      rw [runAux_cons_pass baseUrl oracle tc rest idx hist issued r hsm ho hc hjB]
      rw [ih (idx + 1) (hist ++ [respRecord r]) (issued ++ [idx]) hp2]
      rw [List.length_cons, range_map_shift_pass oracle idx rest.length,
        range_map_shift_idx idx rest.length, ho]
      simp [passRecord, List.append_assoc]

/-- If the cases before index `i` pass and case `i` fails, the loop
stops at `i`: it reports failure with exactly the failure record of
case `i`, appends `i + 1` records in total, and issues requests only
for the supported-method cases up to and including `i`. -/
theorem runAux_first_fail (baseUrl : String) (oracle : Nat → HttpOutcome) :
    ∀ (i : Nat) (tcs : List TestCase) (idx : Nat) (hist : List RequestRecord) (issued : List Nat),
    i < tcs.length →
    (∀ j, j < i → casePasses (tcs.getD j emptyTestCase) (oracle (idx + j)) = true) →
    casePasses (tcs.getD i emptyTestCase) (oracle (idx + i)) = false →
    runAux baseUrl oracle tcs idx hist issued =
      (⟨false,
        hist ++ (List.range i).map (fun j => passRecord (oracle (idx + j)))
          ++ [(caseFailure baseUrl (tcs.getD i emptyTestCase) (oracle (idx + i))).failed_record],
        some (caseFailure baseUrl (tcs.getD i emptyTestCase) (oracle (idx + i)))⟩,
       issued ++ (List.range i).map (fun j => idx + j)
         ++ (if supportedMethod (tcs.getD i emptyTestCase).method then [idx + i] else [])) := by
  intro i
  induction i with
  | zero =>
    intro tcs idx hist issued hi hp hf
    cases tcs with
    | nil => simp at hi
    | cons tc rest =>
      simp only [List.getD_cons_zero, Nat.add_zero] at hf ⊢
      by_cases hsm : supportedMethod tc.method = true
      · cases ho : oracle idx with
        | exc e =>
          rw [runAux_cons_exc baseUrl oracle tc rest idx hist issued e hsm ho]
          simp [hsm, ho]
        | resp r =>
          rw [ho] at hf
          simp only [casePasses, hsm, Bool.true_and, Bool.and_eq_false_iff] at hf
          by_cases hc : tc.expected_status.contains r.statusCode = true
          · have hjf : (!tc.requires_json || isStructured r.respBody) = false := by
              rcases hf with h | h
              · rw [h] at hc; exact absurd hc (by simp)
              · exact h
            have hrq : tc.requires_json = true := by
              cases hq : tc.requires_json <;> simp_all
            have hst : isStructured r.respBody = false := by
              cases hs : isStructured r.respBody <;> simp_all
            rw [runAux_cons_badjson baseUrl oracle tc rest idx hist issued r hsm ho hc hrq hst]
            simp [hsm, ho]
          · have hc2 : tc.expected_status.contains r.statusCode = false := by
              cases h : tc.expected_status.contains r.statusCode <;> simp_all
            rw [runAux_cons_badstatus baseUrl oracle tc rest idx hist issued r hsm ho hc2]
            simp [hsm, ho]
      · have hsm2 : supportedMethod tc.method = false := by
          cases h : supportedMethod tc.method <;> simp_all
        rw [runAux_cons_unsupported baseUrl oracle tc rest idx hist issued hsm2]
        simp [hsm2]
  | succ i ih =>
    intro tcs idx hist issued hi hp hf
    cases tcs with
    | nil => simp at hi
    | cons tc rest =>
      have h0 : casePasses tc (oracle idx) = true := by
        have := hp 0 (Nat.succ_pos i)
        simpa using this
      cases ho : oracle idx with
      | exc e => rw [ho] at h0; simp [casePasses] at h0
      | resp r =>
        rw [ho] at h0
        simp only [casePasses, Bool.and_eq_true] at h0
        obtain ⟨⟨hsm, hc⟩, hj⟩ := h0
        have hjB : (tc.requires_json && !(isStructured r.respBody)) = false := by
          cases hq : tc.requires_json <;> cases hs : isStructured r.respBody <;> simp_all
        have hi2 : i < rest.length := by simpa using Nat.lt_of_succ_lt_succ hi
        have hp2 : ∀ j, j < i →
            casePasses (rest.getD j emptyTestCase) (oracle (idx + 1 + j)) = true := by
          intro j hj2
          have := hp (j + 1) (Nat.succ_lt_succ hj2)
          have e1 : idx + (j + 1) = idx + 1 + j := by omega
          simpa [e1] using this
        have hf2 : casePasses (rest.getD i emptyTestCase) (oracle (idx + 1 + i)) = false := by
          have e1 : idx + (i + 1) = idx + 1 + i := by omega
          simpa [e1] using hf
        rw [runAux_cons_pass baseUrl oracle tc rest idx hist issued r hsm ho hc hjB]
        rw [ih rest (idx + 1) (hist ++ [respRecord r]) (issued ++ [idx]) hi2 hp2 hf2]
        have e1 : idx + 1 + i = idx + (i + 1) := by omega
        simp only [List.getD_cons_succ, e1]
        rw [range_map_shift_pass oracle idx i, range_map_shift_idx idx i, ho]
        simp [passRecord, List.append_assoc]

/-! ## Claim theorems about the native test runner -/

/-- C1: For every test suite, `run_native_tests` returns `success=true`
with `request_history` length equal to the number of test cases when
every case passes (actual status in its expected set, JSON requirements
met); and when the first failing case is at index `i`, it returns
`success=false` with `request_history` of length exactly `i + 1`,
issuing no requests for indices greater than `i`. -/
theorem C1_stop_on_first_failure (baseUrl : String) (tcs : List TestCase)
    (oracle : Nat → HttpOutcome) :
    ((∀ j, j < tcs.length → casePasses (tcs.getD j emptyTestCase) (oracle j) = true) →
      (run_native_tests baseUrl tcs oracle).1.success = true ∧
      (run_native_tests baseUrl tcs oracle).1.request_history.length = tcs.length) ∧
    (∀ i, i < tcs.length →
      (∀ j, j < i → casePasses (tcs.getD j emptyTestCase) (oracle j) = true) →
      casePasses (tcs.getD i emptyTestCase) (oracle i) = false →
      (run_native_tests baseUrl tcs oracle).1.success = false ∧
      (run_native_tests baseUrl tcs oracle).1.request_history.length = i + 1 ∧
      ∀ k ∈ (run_native_tests baseUrl tcs oracle).2, k ≤ i) := by
  constructor
  · intro hp
    have h := runAux_all_pass baseUrl oracle tcs 0 [] [] (by
      intro j hj
      simpa using hp j hj)
    rw [run_native_tests, h]
    simp
  · intro i hi hp hf
    have h := runAux_first_fail baseUrl oracle i tcs 0 [] [] hi (by
      intro j hj
      simpa using hp j hj) (by simpa using hf)
    rw [run_native_tests, h]
    refine ⟨rfl, by simp, ?_⟩
    intro k hk
    simp only [List.nil_append, List.mem_append, List.mem_map, List.mem_range] at hk
    rcases hk with ⟨a, ha, rfl⟩ | hk
    · omega
    · rcases h2 : supportedMethod (tcs.getD i emptyTestCase).method with _ | _ <;>
        rw [h2] at hk <;> simp_all

/-- All-pass network oracle for the configured two-case suite. -/
def oracleAllPass : Nat → HttpOutcome := fun i =>
  if i = 0 then
    .resp { reqMethod := "GET", reqUrl := "http://api/health", reqHeaders := []
            reqBody := none, statusCode := 200, respHeaders := [], respBody := .str "OK" }
  else
    .resp { reqMethod := "POST", reqUrl := "http://api/login", reqHeaders := []
            reqBody := some "x", statusCode := 401, respHeaders := []
            respBody := .obj [("error", .str "invalid credentials")] }

/-- Oracle whose first response is a 500 with a non-JSON body. -/
def oracleFail500 : Nat → HttpOutcome := fun _ =>
  .resp { reqMethod := "GET", reqUrl := "http://api/health", reqHeaders := []
          reqBody := none, statusCode := 500, respHeaders := []
          respBody := .str "Internal Server Error" }

theorem C1_stop_on_first_failure_witness :
    ((run_native_tests "http://api" load_test_cases oracleAllPass).1.success = true ∧
     (run_native_tests "http://api" load_test_cases oracleAllPass).1.request_history.length = 2) ∧
    ((run_native_tests "http://api" load_test_cases oracleFail500).1.success = false ∧
     (run_native_tests "http://api" load_test_cases oracleFail500).1.request_history.length = 1 ∧
     ∀ k ∈ (run_native_tests "http://api" load_test_cases oracleFail500).2, k ≤ 0) := by
  constructor
  · have h := (C1_stop_on_first_failure "http://api" load_test_cases oracleAllPass).1
      (by decide)
    simpa [load_test_cases] using h
  · have h := (C1_stop_on_first_failure "http://api" load_test_cases oracleFail500).2
      0 (by decide) (by omega) (by decide)
    simpa [load_test_cases] using h

theorem casePasses_exc (tc : TestCase) (e : ExcInfo) :
    casePasses tc (.exc e) = false := rfl

theorem casePasses_badstatus (tc : TestCase) (r : HttpResp)
    (hc : tc.expected_status.contains r.statusCode = false) :
    casePasses tc (.resp r) = false := by
  have hc2 : r.statusCode ∉ tc.expected_status := by simpa using hc
  simp [casePasses, hc2]

theorem casePasses_unsupported (tc : TestCase) (o : HttpOutcome)
    (hsm : supportedMethod tc.method = false) :
    casePasses tc o = false := by
  cases o <;> simp [casePasses, hsm]

theorem caseFailure_exc (baseUrl : String) (tc : TestCase) (e : ExcInfo)
    (hsm : supportedMethod tc.method = true) :
    caseFailure baseUrl tc (.exc e) =
      { test_name := tc.name
        reason := exceptionReason tc.endpoint e
        failed_record :=
          excRecord tc.method (rstripSlash baseUrl ++ tc.endpoint) tc.payload e.toStr } := by
  simp [caseFailure, hsm]

theorem caseFailure_badstatus (baseUrl : String) (tc : TestCase) (r : HttpResp)
    (hsm : supportedMethod tc.method = true)
    (hc : tc.expected_status.contains r.statusCode = false) :
    caseFailure baseUrl tc (.resp r) =
      { test_name := tc.name
        reason := expectedStatusReason tc.expected_status tc.endpoint r.statusCode
        failed_record := respRecord r } := by
  have hc2 : r.statusCode ∉ tc.expected_status := by simpa using hc
  simp [caseFailure, hsm, hc2]

theorem caseFailure_unsupported (baseUrl : String) (tc : TestCase) (o : HttpOutcome)
    (hsm : supportedMethod tc.method = false) :
    caseFailure baseUrl tc o =
      { test_name := tc.name
        reason := exceptionReason tc.endpoint (unsupportedMethodExc tc.method)
        failed_record :=
          excRecord tc.method (rstripSlash baseUrl ++ tc.endpoint) tc.payload
            (unsupportedMethodExc tc.method).toStr } := by
  simp [caseFailure, hsm]

/-- C3: A transport-level exception while executing test case `i`
produces a `RequestRecord` with `status_code = 0` and `response_body`
equal to the error description, appends that record to the history
(which then has length `i + 1`), and stops the run with a `TestFailure`
of the same structure as an assertion failure (test name, reason,
failed record) instead of propagating the exception. -/
theorem C3_transport_exception_record (baseUrl : String) (tcs : List TestCase)
    (oracle : Nat → HttpOutcome) (i : Nat) (e : ExcInfo)
    (hi : i < tcs.length)
    (hp : ∀ j, j < i → casePasses (tcs.getD j emptyTestCase) (oracle j) = true)
    (hsm : supportedMethod (tcs.getD i emptyTestCase).method = true)
    (ho : oracle i = .exc e) :
    (run_native_tests baseUrl tcs oracle).1.success = false ∧
    (run_native_tests baseUrl tcs oracle).1.failure =
      some { test_name := (tcs.getD i emptyTestCase).name
             reason := exceptionReason (tcs.getD i emptyTestCase).endpoint e
             failed_record :=
               excRecord (tcs.getD i emptyTestCase).method
                 (rstripSlash baseUrl ++ (tcs.getD i emptyTestCase).endpoint)
                 (tcs.getD i emptyTestCase).payload e.toStr } ∧
    (run_native_tests baseUrl tcs oracle).1.request_history.getLast? =
      some (excRecord (tcs.getD i emptyTestCase).method
        (rstripSlash baseUrl ++ (tcs.getD i emptyTestCase).endpoint)
        (tcs.getD i emptyTestCase).payload e.toStr) ∧
    (run_native_tests baseUrl tcs oracle).1.request_history.length = i + 1 ∧
    (excRecord (tcs.getD i emptyTestCase).method
      (rstripSlash baseUrl ++ (tcs.getD i emptyTestCase).endpoint)
      (tcs.getD i emptyTestCase).payload e.toStr).status_code = 0 ∧
    (excRecord (tcs.getD i emptyTestCase).method
      (rstripSlash baseUrl ++ (tcs.getD i emptyTestCase).endpoint)
      (tcs.getD i emptyTestCase).payload e.toStr).response_body = .str e.toStr := by
  have hf : casePasses (tcs.getD i emptyTestCase) (oracle (0 + i)) = false := by
    rw [Nat.zero_add, ho]
    exact casePasses_exc _ e
  have h := runAux_first_fail baseUrl oracle i tcs 0 [] [] hi (by
    intro j hj
    simpa using hp j hj) hf
  rw [run_native_tests, h]
  have hcf : caseFailure baseUrl (tcs.getD i emptyTestCase) (oracle (0 + i)) =
      { test_name := (tcs.getD i emptyTestCase).name
        reason := exceptionReason (tcs.getD i emptyTestCase).endpoint e
        failed_record :=
          excRecord (tcs.getD i emptyTestCase).method
            (rstripSlash baseUrl ++ (tcs.getD i emptyTestCase).endpoint)
            (tcs.getD i emptyTestCase).payload e.toStr } := by
    rw [Nat.zero_add, ho]
    exact caseFailure_exc baseUrl _ e hsm
  rw [hcf]
  refine ⟨rfl, rfl, ?_, by simp, rfl, rfl⟩
  simp

/-- C4: For every executed test case whose HTTP response is received
but whose status code is not in the expected set, the run fails with
reason exactly `"Expected {codes joined by ' or '} from {endpoint},
got {actual}"`. -/
theorem C4_status_mismatch_reason (baseUrl : String) (tcs : List TestCase)
    (oracle : Nat → HttpOutcome) (i : Nat) (r : HttpResp)
    (hi : i < tcs.length)
    (hp : ∀ j, j < i → casePasses (tcs.getD j emptyTestCase) (oracle j) = true)
    (hsm : supportedMethod (tcs.getD i emptyTestCase).method = true)
    (ho : oracle i = .resp r)
    (hc : (tcs.getD i emptyTestCase).expected_status.contains r.statusCode = false) :
    (run_native_tests baseUrl tcs oracle).1.success = false ∧
    (run_native_tests baseUrl tcs oracle).1.failure =
      some { test_name := (tcs.getD i emptyTestCase).name
             reason := expectedStatusReason (tcs.getD i emptyTestCase).expected_status
               (tcs.getD i emptyTestCase).endpoint r.statusCode
             failed_record := respRecord r } := by
  have hf : casePasses (tcs.getD i emptyTestCase) (oracle (0 + i)) = false := by
    rw [Nat.zero_add, ho]
    exact casePasses_badstatus _ r hc
  have h := runAux_first_fail baseUrl oracle i tcs 0 [] [] hi (by
    intro j hj
    simpa using hp j hj) hf
  rw [run_native_tests, h]
  have hcf : caseFailure baseUrl (tcs.getD i emptyTestCase) (oracle (0 + i)) =
      { test_name := (tcs.getD i emptyTestCase).name
        reason := expectedStatusReason (tcs.getD i emptyTestCase).expected_status
          (tcs.getD i emptyTestCase).endpoint r.statusCode
        failed_record := respRecord r } := by
    rw [Nat.zero_add, ho]
    exact caseFailure_badstatus baseUrl _ r hsm hc
  rw [hcf]
  exact ⟨rfl, rfl⟩

theorem C4_status_mismatch_reason_witness :
    (run_native_tests "http://api" [load_test_cases.getD 1 emptyTestCase]
      (fun _ => .resp { reqMethod := "POST", reqUrl := "http://api/login", reqHeaders := []
                        reqBody := some "x", statusCode := 500, respHeaders := []
                        respBody := .str "Internal Server Error" })).1.failure =
      some { test_name := "login_requirements"
             reason := "Expected 200 or 401 from /login, got 500"
             failed_record :=
               { method := "POST", url := "http://api/login", request_headers := []
                 request_body := some (.str "x"), status_code := 500
                 response_headers := [], response_body := .str "Internal Server Error" } } := by
  have h := (C4_status_mismatch_reason "http://api"
    [load_test_cases.getD 1 emptyTestCase]
    (fun _ => .resp { reqMethod := "POST", reqUrl := "http://api/login", reqHeaders := []
                      reqBody := some "x", statusCode := 500, respHeaders := []
                      respBody := .str "Internal Server Error" })
    0 { reqMethod := "POST", reqUrl := "http://api/login", reqHeaders := []
        reqBody := some "x", statusCode := 500, respHeaders := []
        respBody := .str "Internal Server Error" }
    (by decide) (by omega) (by decide) rfl (by decide)).2
  rw [h]
  rfl

/-- C5: A test case whose method is outside GET/POST/PUT/DELETE aborts
that case with a reported error: the run fails at that case with the
`Unsupported HTTP method` ValueError as its reason, later cases are not
executed (history stops at `i + 1` records), and no HTTP request is
issued for the case or any later one — it is neither silently skipped
nor retried. -/
theorem C5_unsupported_method_aborts (baseUrl : String) (tcs : List TestCase)
    (oracle : Nat → HttpOutcome) (i : Nat)
    (hi : i < tcs.length)
    (hp : ∀ j, j < i → casePasses (tcs.getD j emptyTestCase) (oracle j) = true)
    (hsm : supportedMethod (tcs.getD i emptyTestCase).method = false) :
    (run_native_tests baseUrl tcs oracle).1.success = false ∧
    (run_native_tests baseUrl tcs oracle).1.failure =
      some { test_name := (tcs.getD i emptyTestCase).name
             reason := exceptionReason (tcs.getD i emptyTestCase).endpoint
               (unsupportedMethodExc (tcs.getD i emptyTestCase).method)
             failed_record :=
               excRecord (tcs.getD i emptyTestCase).method
                 (rstripSlash baseUrl ++ (tcs.getD i emptyTestCase).endpoint)
                 (tcs.getD i emptyTestCase).payload
                 (unsupportedMethodExc (tcs.getD i emptyTestCase).method).toStr } ∧
    (run_native_tests baseUrl tcs oracle).1.request_history.length = i + 1 ∧
    ∀ k ∈ (run_native_tests baseUrl tcs oracle).2, k < i := by
  have hf : casePasses (tcs.getD i emptyTestCase) (oracle (0 + i)) = false :=
    casePasses_unsupported _ _ hsm
  have h := runAux_first_fail baseUrl oracle i tcs 0 [] [] hi (by
    intro j hj
    simpa using hp j hj) hf
  rw [run_native_tests, h]
  have hcf : caseFailure baseUrl (tcs.getD i emptyTestCase) (oracle (0 + i)) =
      { test_name := (tcs.getD i emptyTestCase).name
        reason := exceptionReason (tcs.getD i emptyTestCase).endpoint
          (unsupportedMethodExc (tcs.getD i emptyTestCase).method)
        failed_record :=
          excRecord (tcs.getD i emptyTestCase).method
            (rstripSlash baseUrl ++ (tcs.getD i emptyTestCase).endpoint)
            (tcs.getD i emptyTestCase).payload
            (unsupportedMethodExc (tcs.getD i emptyTestCase).method).toStr } :=
    caseFailure_unsupported baseUrl _ _ hsm
  rw [hcf]
  refine ⟨rfl, rfl, by simp, ?_⟩
  intro k hk
  rw [hsm] at hk
  simp only [List.nil_append, Bool.false_eq_true, if_false, List.append_nil,
    List.mem_map, List.mem_range] at hk
  rcases hk with ⟨a, ha, rfl⟩
  omega

theorem C5_unsupported_method_aborts_witness :
    (run_native_tests "http://api"
      [{ name := "patch_case", method := "PATCH", endpoint := "/thing", payload := none
         expected_status := [200], requires_json := false }] oracleAllPass).1.success = false ∧
    (run_native_tests "http://api"
      [{ name := "patch_case", method := "PATCH", endpoint := "/thing", payload := none
         expected_status := [200], requires_json := false }] oracleAllPass).1.failure =
      some { test_name := "patch_case"
             reason := exceptionReason "/thing" (unsupportedMethodExc "PATCH")
             failed_record := excRecord "PATCH" "http://api/thing" none
               "Unsupported HTTP method: PATCH" } ∧
    (run_native_tests "http://api"
      [{ name := "patch_case", method := "PATCH", endpoint := "/thing", payload := none
         expected_status := [200], requires_json := false }] oracleAllPass).1.request_history.length = 1 ∧
    ∀ k ∈ (run_native_tests "http://api"
      [{ name := "patch_case", method := "PATCH", endpoint := "/thing", payload := none
         expected_status := [200], requires_json := false }] oracleAllPass).2, k < 0 := by
  have h := C5_unsupported_method_aborts "http://api"
    [{ name := "patch_case", method := "PATCH", endpoint := "/thing", payload := none
       expected_status := [200], requires_json := false }] oracleAllPass 0
    (by decide) (by omega) (by decide)
  refine ⟨h.1, ?_, h.2.2.1, h.2.2.2⟩
  rw [h.2.1]
  rfl

/-- A transport-level connection failure as httpx reports it. -/
def connRefusedExc : ExcInfo :=
  { toStr := "All connection attempts failed"
    reprStr := "ConnectError(" ++ "\x27" ++ "All connection attempts failed" ++ "\x27" ++ ")" }

theorem C3_transport_exception_record_witness :
    (run_native_tests "http://api" [load_test_cases.getD 0 emptyTestCase]
        (fun _ => .exc connRefusedExc)).1.success = false ∧
    (run_native_tests "http://api" [load_test_cases.getD 0 emptyTestCase]
        (fun _ => .exc connRefusedExc)).1.failure =
      some { test_name := "health_check"
             reason := exceptionReason "/health" connRefusedExc
             failed_record := excRecord "GET" "http://api/health" none connRefusedExc.toStr } ∧
    (run_native_tests "http://api" [load_test_cases.getD 0 emptyTestCase]
        (fun _ => .exc connRefusedExc)).1.request_history.getLast? =
      some (excRecord "GET" "http://api/health" none connRefusedExc.toStr) ∧
    (run_native_tests "http://api" [load_test_cases.getD 0 emptyTestCase]
        (fun _ => .exc connRefusedExc)).1.request_history.length = 1 ∧
    (excRecord "GET" "http://api/health" none connRefusedExc.toStr).status_code = 0 ∧
    (excRecord "GET" "http://api/health" none connRefusedExc.toStr).response_body =
      .str connRefusedExc.toStr := by
  have h := C3_transport_exception_record "http://api"
    [load_test_cases.getD 0 emptyTestCase] (fun _ => .exc connRefusedExc) 0 connRefusedExc
    (by decide) (by omega) (by decide) rfl
  refine ⟨h.1, ?_, ?_, h.2.2.2.1, rfl, rfl⟩
  · rw [h.2.1]
    rfl
  · rw [h.2.2.1]
    rfl

/-! ## Diagnosis payloads (llm/client.py and rag_pipeline.py) -/

/-- The four-field diagnosis dictionary produced by every diagnosis
path. -/
structure Diagnosis where
  FailureCategory : String
  RootCauseSummary : String
  ReproductionSteps : List String
  SuggestedFix : String

/-- A value wrapped in Python single quotes, as the f-strings
`f"Test ..."` and the curl builders produce. -/
def pyQuote (s : String) : String := "\x27" ++ s ++ "\x27"

mutual

/-- Python `repr()` of a JSON-shaped value (single-quoted strings),
used when a non-string value is interpolated into an f-string. -/
def pyRepr : Json → String
  | .null => "None"
  | .bool true => "True"
  | .bool false => "False"
  | .num n => toString n
  | .str s => pyQuote s
  | .arr xs => "[" ++ String.intercalate ", " (pyReprList xs) ++ "]"
  | .obj fs => "\x7b" ++ String.intercalate ", " (pyReprFields fs) ++ "\x7d"

def pyReprList : List Json → List String
  | [] => []
  | x :: xs => pyRepr x :: pyReprList xs

def pyReprFields : List (String × Json) → List String
  | [] => []
  | kv :: fs => (pyQuote kv.1 ++ ": " ++ pyRepr kv.2) :: pyReprFields fs

end

/-- Python `str()` of a JSON-shaped value (`f"... -d '{body}'"`). -/
def pyStr (j : Json) : String :=
  match j with
  | .str s => s
  | _ => pyRepr j

/-- The fix template of the status-code branch of
`generate_mock_diagnosis`. -/
def statusFixTemplate : String :=
  "Review the endpoint implementation and ensure:\n1. The endpoint is registered in the API router\n2. HTTP status codes match the API specification\n3. Error handling returns appropriate status codes (401 for auth failures, 404 for not found)\n\nExample fix:\n```python\n@app.post(\"/login\")\ndef login(payload: LoginRequest, response: Response):\n    if not validate_credentials(payload):\n        response.status_code = status.HTTP_401_UNAUTHORIZED\n        return \x7b\"error\": \"invalid credentials\"\x7d\n    return \x7b\"token\": generate_token(payload.username)\x7d\n```"

/-- The fix template of the json branch of `generate_mock_diagnosis`. -/
def jsonFixTemplate : String :=
  "Ensure all API responses use JSONResponse:\n```python\nfrom fastapi.responses import JSONResponse\n\n@app.get(\"/endpoint\")\ndef handler():\n    return \x7b\"key\": \"value\"\x7d  # FastAPI auto-converts to JSON\n```"

/-- The infra checklist of the exception branch of
`generate_mock_diagnosis`. -/
def envFixTemplate : String :=
  "Check:\n1. The API service is running and accessible\n2. Network connectivity between test runner and API\n3. Environment variables and configuration\n4. Service dependencies (database, Redis, etc.)"

/-- One reproduction-step command line built from a recorded request
(`generate_mock_diagnosis`'s history loop). -/
def mockStep (req : Json) : String :=
  let method := jStrOr req "method" "GET"
  let url := jStrOr req "url" ""
  if method = "GET" then
    "curl -X " ++ method ++ " " ++ pyQuote url
  else
    match jGet req "request_body" with
    | some b =>
      if jTruthy b then
        "curl -X " ++ method ++ " " ++ pyQuote url ++ " -H " ++ pyQuote "Content-Type: application/json"
          ++ " -d " ++ pyQuote (pyStr b)
      else
        "curl -X " ++ method ++ " " ++ pyQuote url
    | none => "curl -X " ++ method ++ " " ++ pyQuote url

/-- The entries of `log["request_history"]`; a missing key iterates as
the empty list. -/
def historyEntries (log : Json) : List Json :=
  match jGet log "request_history" with
  | some (.arr xs) => xs
  | _ => []

/-- `generate_mock_diagnosis(log)` (llm/client.py): the rule-based
fallback diagnosis, classifying by substring heuristics over
`failure_reason`. -/
def generate_mock_diagnosis (log : Json) : Diagnosis :=
  let status := jStrOr log "status" "unknown"
  let failure_reason := jStrOr log "failure_reason" "Unknown failure"
  let test_name := jStrOr log "test_name" "unknown_test"
  if status = "passed" then
    { FailureCategory := "Success"
      RootCauseSummary := "All tests passed successfully."
      ReproductionSteps := []
      SuggestedFix := "No fixes needed." }
  else
    let cat_sum_fix :=
      if strContains (pyLower failure_reason) "status_code" || strContains failure_reason "401"
          || strContains failure_reason "404" then
        ("Product Bug",
         "Test " ++ pyQuote test_name ++ " failed due to unexpected HTTP status code. "
           ++ failure_reason ++ ". This indicates the API endpoint may not be "
           ++ "properly handling the request or the endpoint implementation is incorrect.",
         statusFixTemplate)
      else if strContains (pyLower failure_reason) "json" then
        ("Product Bug",
         "Test " ++ pyQuote test_name ++ " expected a JSON response but received a different format. "
           ++ "The API should consistently return JSON for all endpoints.",
         jsonFixTemplate)
      else if strContains (pyLower failure_reason) "exception"
          || strContains (pyLower failure_reason) "error" then
        ("Environment Issue",
         "Test " ++ pyQuote test_name ++ " encountered an exception: " ++ failure_reason ++ ". "
           ++ "This may indicate network issues, service unavailability, or configuration problems.",
         envFixTemplate)
      else
        ("Automation Flaw",
         "Test " ++ pyQuote test_name ++ " failed: " ++ failure_reason,
         "Review the test implementation and API specification for discrepancies.")
    let steps := (historyEntries log).map mockStep
    { FailureCategory := cat_sum_fix.1
      RootCauseSummary := cat_sum_fix.2.1
      ReproductionSteps := if steps.isEmpty then ["Run the test suite against the API"] else steps
      SuggestedFix := cat_sum_fix.2.2 }

/-! ## `json.dumps` (used by rag_pipeline.py and redis_client.py) -/

/-- One hexadecimal digit (lowercase), for `\uXXXX` escapes. -/
def hexDigit (n : Nat) : Char :=
  "0123456789abcdef".data.getD n (Char.ofNat 48)

/-- Four-digit lowercase hex, as CPython renders `\uXXXX`. -/
def hex4 (n : Nat) : String :=
  ⟨[hexDigit (n / 4096 % 16), hexDigit (n / 256 % 16), hexDigit (n / 16 % 16), hexDigit (n % 16)]⟩

/-- `json.dumps` escaping of one character. `ea` is `ensure_ascii`:
when true (the default), characters outside ASCII are also escaped. -/
def jsonEscapeChar (ea : Bool) (c : Char) : String :=
  if c = Char.ofNat 34 then "\\\""
  else if c = Char.ofNat 92 then "\\\\"
  else if c = Char.ofNat 10 then "\\n"
  else if c = Char.ofNat 9 then "\\t"
  else if c = Char.ofNat 13 then "\\r"
  else if c = Char.ofNat 8 then "\\b"
  else if c = Char.ofNat 12 then "\\f"
  else if c.toNat < 32 then "\\u" ++ hex4 c.toNat
  else if ea && c.toNat ≥ 127 then "\\u" ++ hex4 c.toNat
  else ⟨[c]⟩

/-- `json.dumps` escaping of a string body. -/
def jsonEscape (ea : Bool) (s : String) : String :=
  String.join (s.data.map (jsonEscapeChar ea))

mutual

/-- `json.dumps(j)` with the default separators `", "` and `": "`;
`ea` is the `ensure_ascii` flag (json.dumps default is true,
`retrieve_context` passes `ensure_ascii=False`). -/
def jsonDumps (ea : Bool) : Json → String
  | .null => "null"
  | .bool true => "true"
  | .bool false => "false"
  | .num n => toString n
  | .str s => "\"" ++ jsonEscape ea s ++ "\""
  | .arr xs => "[" ++ String.intercalate ", " (jsonDumpsList ea xs) ++ "]"
  | .obj fs => "\x7b" ++ String.intercalate ", " (jsonDumpsFields ea fs) ++ "\x7d"

def jsonDumpsList (ea : Bool) : List Json → List String
  | [] => []
  | x :: xs => jsonDumps ea x :: jsonDumpsList ea xs

def jsonDumpsFields (ea : Bool) : List (String × Json) → List String
  | [] => []
  | kv :: fs =>
    ("\"" ++ jsonEscape ea kv.1 ++ "\"" ++ ": " ++ jsonDumps ea kv.2) :: jsonDumpsFields ea fs

end

/-! ## Vector DB client and context retrieval (rag_pipeline.py) -/

/-- The state of `VectorDBClient` the pipeline observes: whether redis
was importable, a URL was configured, and `redis.from_url` succeeded. -/
structure VectorDBClient where
  enabled : Bool

/-- `VectorDBClient.index_name`. -/
def index_name (base commit_hash : String) : String :=
  base ++ ":" ++ commit_hash

/-- One query issued to the vector-search wrapper, as instrumentation:
either a RedisVL `query_vector` call (index, query text, return
fields, optional commit filter, top-k) or a legacy `search` call. -/
inductive VQuery where
  | vector (idxName queryText : String) (returnFields : List String)
      (filterCommit : Option String) (topK : Nat) : VQuery
  | legacy (idxName queryText : String) (topK : Nat) : VQuery

/-- `VectorDBClient.query_vector`: with RedisVL unavailable, the client
disabled, or the index not yet implemented, every branch returns the
empty result list (the source's TODO body returns `[]`). -/
def query_vector (redisvlAvailable : Bool) (vdb : VectorDBClient)
    (_idxName _queryText : String) (_returnFields : List String)
    (_filterExpr : Option String) (_topK : Nat) : List Json :=
  if !redisvlAvailable || !vdb.enabled then [] else []

/-- `VectorDBClient.search` (legacy stub): always the empty list. -/
def vdb_search (vdb : VectorDBClient) (_idxName _queryText : String) (_topK : Nat) : List Json :=
  if !vdb.enabled then [] else []

/-- The `{"code": ..., "docs": ...}` dictionary `retrieve_context`
returns; both values are lists by construction. -/
structure RetrievalResult where
  code : List Json
  docs : List Json

/-- `retrieve_context(error_log, commit_hash, vdb, top_k=5)`,
instrumented with the list of queries issued to the wrapper.  On the
RedisVL path the code query carries `filter_expr={"commit_hash": ...}`
and the doc query carries `filter_expr=None`; on the legacy path both
index names are commit-suffixed via `index_name`. -/
def retrieve_context (error_log : Json) (commit_hash : String)
    (redisvlAvailable : Bool) (vdb : Option VectorDBClient) (top_k : Nat := 5) :
    RetrievalResult × List VQuery :=
  let query_text := jsonDumps false error_log
  if redisvlAvailable && (match vdb with | some v => v.enabled | none => false) then
    match vdb with
    | some v =>
      let codeQ := VQuery.vector "code_index" query_text ["filepath", "content", "commit_hash"]
        (some commit_hash) top_k
      let code_results := query_vector redisvlAvailable v "code_index" query_text
        ["filepath", "content", "commit_hash"] (some commit_hash) top_k
      let docQ := VQuery.vector "doc_index" query_text ["title", "content"] none top_k
      let doc_results := query_vector redisvlAvailable v "doc_index" query_text
        ["title", "content"] none top_k
      (⟨code_results, doc_results⟩, [codeQ, docQ])
    | none => (⟨[], []⟩, [])
  else
    match vdb with
    | some v =>
      let code_index := index_name "code_index" commit_hash
      let doc_index := index_name "doc_index" commit_hash
      (⟨vdb_search v code_index query_text top_k, vdb_search v doc_index query_text top_k⟩,
       [VQuery.legacy code_index query_text top_k, VQuery.legacy doc_index query_text top_k])
    | none => (⟨[], []⟩, [])

/-- The prompt dictionary `{"log": raw_log, "context": context}` that
`run_rag_diagnosis` hands to its diagnosis function. -/
structure RagPrompt where
  log : Json
  context : RetrievalResult

/-- `llm_generate` as defined at module level in rag_pipeline.py (the
definition that is in scope inside `run_rag_diagnosis`, shadowing the
`quality_agent.llm` import): a fixed mocked diagnosis whose category is
always `"Product Bug"`. -/
def rag_llm_generate (prompt : RagPrompt) : Diagnosis :=
  let log := prompt.log
  let failure_reason := jStrOr log "failure_reason" "Unknown failure"
  let test_name := jStrOr log "test_name" "unknown_test"
  { FailureCategory := "Product Bug"
    RootCauseSummary := "Test " ++ pyQuote test_name ++ " failed: " ++ failure_reason
      ++ ". This indicates the API implementation may not be following the expected contract."
    ReproductionSteps :=
      [ "curl -X GET " ++ pyQuote "<API_BASE_URL>/health"
      , "curl -X POST " ++ pyQuote "<API_BASE_URL>/login" ++ " -H "
          ++ pyQuote "Content-Type: application/json" ++ " -d "
          ++ pyQuote "\x7b\"username\": \"test_user\", \"password\": \"wrong_password\"\x7d" ]
    SuggestedFix := "Ensure all error branches return proper HTTP status codes (401 for auth failures) and JSON response bodies. Example:\n\nresponse.status_code = status.HTTP_401_UNAUTHORIZED\nreturn \x7b\x27error\x27: \x27invalid credentials\x27\x7d" }

/-- `raw_log.get("status") == "passed"`. -/
def statusIsPassed (j : Json) : Bool :=
  match jGet j "status" with
  | some (.str s) => s = "passed"
  | _ => false

/-- `run_rag_diagnosis(raw_log, commit_hash)`: short-circuits passed
runs; otherwise retrieves context (when the vector DB is enabled) and
calls the module-level `llm_generate` of rag_pipeline.py on the
`{"log", "context"}` prompt.  The ingestion step mutates only the
external store and contributes nothing to the returned diagnosis. -/
def run_rag_diagnosis (raw_log : Json) (commit_hash : String)
    (redisvlAvailable vdbEnabled : Bool) : Diagnosis :=
  if statusIsPassed raw_log then
    { FailureCategory := "Success"
      RootCauseSummary := "All tests passed successfully."
      ReproductionSteps := []
      SuggestedFix := "No fixes needed." }
  else
    let vdb : VectorDBClient := ⟨vdbEnabled⟩
    let context :=
      if vdb.enabled then (retrieve_context raw_log commit_hash redisvlAvailable (some vdb) 5).1
      else ⟨[], []⟩
    rag_llm_generate ⟨raw_log, context⟩

/-! ## Claims C2 and C6 -/

/-- A failing raw log whose failure reason mentions "exception" but
none of the substrings matched earlier by the rule-based heuristics. -/
def c2FailingLog : Json :=
  .obj [ ("status", .str "failed")
       , ("test_name", .str "health_check")
       , ("failure_reason", .str "Transport exception: connection refused")
       , ("request_history", .arr []) ]

/-- C2: the rule-based fallback (`generate_mock_diagnosis`) does map a
failing log whose reason contains "exception" (and none of the
earlier-matched substrings) to `"Environment Issue"`, but the
pipeline's diagnosis stage (`run_rag_diagnosis`) does not: the
module-level `llm_generate` defined in rag_pipeline.py shadows the
imported fallback and always returns `"Product Bug"`. -/
theorem C2_pipeline_category_vs_heuristics :
    (run_rag_diagnosis c2FailingLog "abc123" false false).FailureCategory = "Product Bug" ∧
    (generate_mock_diagnosis c2FailingLog).FailureCategory = "Environment Issue" ∧
    strContains (pyLower (jStrOr c2FailingLog "failure_reason" "Unknown failure"))
      "exception" = true ∧
    strContains (pyLower (jStrOr c2FailingLog "failure_reason" "Unknown failure"))
      "status_code" = false ∧
    strContains (jStrOr c2FailingLog "failure_reason" "Unknown failure") "401" = false ∧
    strContains (jStrOr c2FailingLog "failure_reason" "Unknown failure") "404" = false ∧
    strContains (pyLower (jStrOr c2FailingLog "failure_reason" "Unknown failure"))
      "json" = false := by
  exact ⟨rfl, rfl, by decide, by decide, by decide, by decide, by decide⟩

/-- Is this wrapper query scoped to the given commit, either through
its filter expression or through a commit-suffixed index name? -/
def vqueryScopedTo (commit : String) : VQuery → Bool
  | .vector idxName _ _ filterCommit _ =>
    filterCommit == some commit || pyEndsWith idxName (":" ++ commit)
  | .legacy idxName _ _ => pyEndsWith idxName (":" ++ commit)

theorem C6_doc_query_unscoped_counterexample :
    ¬ (∀ q ∈ (retrieve_context (Json.obj []) "deadbeef" true (some ⟨true⟩) 5).2,
        vqueryScopedTo "deadbeef" q = true) := by
  decide

/-- C6 (amended): given a failing log and a commit identifier, with the
vector client enabled, `retrieve_context` issues exactly two wrapper
queries — code index first, documentation index second — bounded by the
given top-K (5 by default), and returns the code/docs dictionary whose
values are both lists (here, both empty, as the wrapper stubs return
no hits).  On the RedisVL path the code query is scoped to the commit
via its filter expression while the documentation query is unscoped;
only on the legacy fallback path are both index names commit-scoped. -/
theorem C6_retrieval_two_queries (error_log : Json) (commit_hash : String)
    (top_k : Nat) (redisvl : Bool) (v : VectorDBClient) (hv : v.enabled = true) :
    (retrieve_context error_log commit_hash redisvl (some v) top_k).2.length = 2 ∧
    (redisvl = true →
      (retrieve_context error_log commit_hash redisvl (some v) top_k).2 =
        [ VQuery.vector "code_index" (jsonDumps false error_log)
            ["filepath", "content", "commit_hash"] (some commit_hash) top_k
        , VQuery.vector "doc_index" (jsonDumps false error_log)
            ["title", "content"] none top_k ]) ∧
    (redisvl = false →
      (retrieve_context error_log commit_hash redisvl (some v) top_k).2 =
        [ VQuery.legacy (index_name "code_index" commit_hash) (jsonDumps false error_log) top_k
        , VQuery.legacy (index_name "doc_index" commit_hash) (jsonDumps false error_log) top_k ]) ∧
    (retrieve_context error_log commit_hash redisvl (some v) top_k).1 = ⟨[], []⟩ := by
  cases redisvl with
  | false =>
    refine ⟨?_, ?_, ?_, ?_⟩
    · simp [retrieve_context, hv, vdb_search, query_vector]
    · intro h
      cases h
    · intro _
      simp [retrieve_context, hv]
    · simp [retrieve_context, hv, vdb_search, query_vector]
  | true =>
    refine ⟨?_, ?_, ?_, ?_⟩
    · simp [retrieve_context, hv, vdb_search, query_vector]
    · intro _
      simp [retrieve_context, hv]
    · intro h
      cases h
    · simp [retrieve_context, hv, vdb_search, query_vector]

theorem C6_retrieval_two_queries_witness :
    (retrieve_context (Json.obj []) "c0" true (some ⟨true⟩) 5).2 =
      [ VQuery.vector "code_index" "\x7b\x7d" ["filepath", "content", "commit_hash"]
          (some "c0") 5
      , VQuery.vector "doc_index" "\x7b\x7d" ["title", "content"] none 5 ] ∧
    (retrieve_context (Json.obj []) "c0" false (some ⟨true⟩) 5).2 =
      [ VQuery.legacy "code_index:c0" "\x7b\x7d" 5
      , VQuery.legacy "doc_index:c0" "\x7b\x7d" 5 ] := by
  have h1 := C6_retrieval_two_queries (Json.obj []) "c0" 5 true ⟨true⟩ rfl
  have h2 := C6_retrieval_two_queries (Json.obj []) "c0" 5 false ⟨true⟩ rfl
  constructor
  · rw [h1.2.1 rfl]
    rfl
  · rw [h2.2.2.1 rfl]
    rfl

/-! ## Skyflow tokenization client (skyflow_client.py) -/

/-- Python truthiness of an optional string (`None` and `""` falsy). -/
def optTruthy : Option String → Bool
  | none => false
  | some s => s != ""

/-- Python `a or b` on optional strings. -/
def pyOrStr (a b : Option String) : Option String :=
  if optTruthy a then a else b

/-- The state of `SkyflowClient` after `__init__`. -/
structure SkyflowClient where
  vault_id : Option String
  api_token : Option String
  base_url : String
  enabled : Bool

/-- `SkyflowClient.__init__`: resolves each setting against the
environment (`SKYFLOW_VAULT_ID`, `SKYFLOW_API_TOKEN`,
`SKYFLOW_BASE_URL`) and is enabled only when both a vault id and an
API token are truthy (optionally also gated by the `enabled`
argument). -/
def skyflowInit (vault_id api_token base_url : Option String) (enabled : Option Bool)
    (envVaultId envToken envBaseUrl : Option String) : SkyflowClient :=
  let env_base_url := match envBaseUrl with
    | some s => s
    | none => "https://prod.skyflowapis.com/v1"
  let vid := pyOrStr vault_id envVaultId
  let tok := pyOrStr api_token envToken
  let burl := match pyOrStr base_url (some env_base_url) with
    | some s => s
    | none => ""
  let en := match enabled with
    | none => optTruthy vid && optTruthy tok
    | some e => e && (optTruthy vid && optTruthy tok)
  { vault_id := vid, api_token := tok, base_url := burl, enabled := en }

/-- What the one `httpx.post` to the tokenize endpoint would produce:
a transport exception, or a response with a status code, raw text and
the outcome of `response.json()`. -/
inductive TokenizeOutcome where
  | exc (msg : String) : TokenizeOutcome
  | resp (statusCode : Nat) (text : String) (body : Except String Json) : TokenizeOutcome

/-- The normalized dictionary `tokenize_record` returns. -/
structure TokenizeResult where
  enabled : Bool
  original : Json
  tokenized : Json

/-- `SkyflowClient.tokenize_record(record)`, paired with the number of
HTTP requests attempted.  A disabled client short-circuits before any
I/O; every exception (transport, JSON decoding, or shape errors while
digging out `records[0]["fields"]`) and every non-2xx status falls
back to the original record with `enabled=False`. -/
def tokenize_record (c : SkyflowClient) (record : Json) (net : TokenizeOutcome) :
    TokenizeResult × Nat :=
  if !c.enabled then
    ({ enabled := false, original := record, tokenized := record }, 0)
  else
    match net with
    | .exc _ => ({ enabled := false, original := record, tokenized := record }, 1)
    | .resp statusCode _ body =>
      if statusCode / 100 ≠ 2 then
        ({ enabled := false, original := record, tokenized := record }, 1)
      else
        match body with
        | .error _ => ({ enabled := false, original := record, tokenized := record }, 1)
        | .ok data =>
          match data with
          | .obj _ =>
            match jGet data "records" with
            | none =>
              ({ enabled := true, original := record, tokenized := record }, 1)
            | some (.arr []) =>
              ({ enabled := false, original := record, tokenized := record }, 1)
            | some (.arr (first :: _)) =>
              match first with
              | .obj _ =>
                let fields := match jGet first "fields" with
                  | some f => f
                  | none => .obj []
                let tokenized := if jTruthy fields then fields else record
                ({ enabled := true, original := record, tokenized := tokenized }, 1)
              | _ => ({ enabled := false, original := record, tokenized := record }, 1)
            | some _ =>
              ({ enabled := false, original := record, tokenized := record }, 1)
          | _ => ({ enabled := false, original := record, tokenized := record }, 1)

/-- C7: a Skyflow client that is not enabled (missing vault id or API
token) performs no network I/O and returns `enabled=false` with the
original record unchanged; and `tokenize_record` never raises — any
exception or non-2xx response during an attempted call also yields
`enabled=false` with the original record returned unchanged. -/
theorem C7_tokenize_record_fail_soft (c : SkyflowClient) (record : Json)
    (net : TokenizeOutcome) :
    (c.enabled = false →
      tokenize_record c record net =
        ({ enabled := false, original := record, tokenized := record }, 0)) ∧
    (∀ msg, net = .exc msg →
      (tokenize_record c record net).1 =
        { enabled := false, original := record, tokenized := record }) ∧
    (∀ statusCode text body, net = .resp statusCode text body → statusCode / 100 ≠ 2 →
      (tokenize_record c record net).1 =
        { enabled := false, original := record, tokenized := record }) ∧
    (∀ vault_id api_token base_url enabled envV envT envB,
      (optTruthy (pyOrStr vault_id envV) = false ∨ optTruthy (pyOrStr api_token envT) = false) →
      (skyflowInit vault_id api_token base_url enabled envV envT envB).enabled = false) := by
  refine ⟨?_, ?_, ?_, ?_⟩
  · intro hdis
    simp [tokenize_record, hdis]
  · intro msg hnet
    subst hnet
    cases hc : c.enabled <;> simp [tokenize_record, hc]
  · intro statusCode text body hnet hstatus
    subst hnet
    cases hc : c.enabled <;> simp [tokenize_record, hc, hstatus]
  · intro vault_id api_token base_url enabled envV envT envB h
    have hand : (optTruthy (pyOrStr vault_id envV) && optTruthy (pyOrStr api_token envT)) = false := by
      rcases h with h | h <;> simp [h]
    cases enabled <;> simp [skyflowInit, hand]

theorem C7_tokenize_record_fail_soft_witness :
    tokenize_record (skyflowInit none none none none none none none)
        (Json.obj [("ssn", .str "123-45-6789")]) (.exc "ConnectError") =
      ({ enabled := false
         original := Json.obj [("ssn", .str "123-45-6789")]
         tokenized := Json.obj [("ssn", .str "123-45-6789")] }, 0) ∧
    (skyflowInit none none none none none none none).enabled = false ∧
    (tokenize_record (skyflowInit (some "vault1") (some "token1") none none none none none)
        (Json.obj [("ssn", .str "123-45-6789")]) (.resp 500 "Server Error" (.ok (Json.obj [])))).1 =
      { enabled := false
        original := Json.obj [("ssn", .str "123-45-6789")]
        tokenized := Json.obj [("ssn", .str "123-45-6789")] } ∧
    (tokenize_record (skyflowInit (some "vault1") (some "token1") none none none none none)
        (Json.obj [("ssn", .str "123-45-6789")]) (.exc "ReadTimeout")).1 =
      { enabled := false
        original := Json.obj [("ssn", .str "123-45-6789")]
        tokenized := Json.obj [("ssn", .str "123-45-6789")] } := by
  refine ⟨?_, ?_, ?_, ?_⟩
  · exact (C7_tokenize_record_fail_soft (skyflowInit none none none none none none none)
      (Json.obj [("ssn", .str "123-45-6789")]) (.exc "ConnectError")).1 rfl
  · exact (C7_tokenize_record_fail_soft (skyflowInit none none none none none none none)
      (Json.obj [("ssn", .str "123-45-6789")]) (.exc "x")).2.2.2
      none none none none none none none (Or.inl rfl)
  · exact (C7_tokenize_record_fail_soft
      (skyflowInit (some "vault1") (some "token1") none none none none none)
      (Json.obj [("ssn", .str "123-45-6789")])
      (.resp 500 "Server Error" (.ok (Json.obj [])))).2.2.1
      500 "Server Error" (.ok (Json.obj [])) rfl (by decide)
  · exact (C7_tokenize_record_fail_soft
      (skyflowInit (some "vault1") (some "token1") none none none none none)
      (Json.obj [("ssn", .str "123-45-6789")]) (.exc "ReadTimeout")).2.1 "ReadTimeout" rfl

/-! ## Failure log builder (logger.py) -/

/-- The side effects `save_raw_failure_log` performs besides returning
the payload: create the runs directory, write the JSON file, print the
confirmation line. -/
inductive LogEffect where
  | makedirs (dir : String) : LogEffect
  | writeJson (path : String) (payload : Json) : LogEffect
  | printLine (msg : String) : LogEffect

/-- `record_to_dict` inside `save_raw_failure_log`. -/
def record_to_dict (r : RequestRecord) : Json :=
  .obj [ ("method", .str r.method)
       , ("url", .str r.url)
       , ("request_headers", .obj (r.request_headers.map (fun kv => (kv.1, Json.str kv.2))))
       , ("request_body", match r.request_body with | some j => j | none => .null)
       , ("status_code", .num r.status_code)
       , ("response_headers", .obj (r.response_headers.map (fun kv => (kv.1, Json.str kv.2))))
       , ("response_body", r.response_body) ]

/-- The `failing_call` view extracted for a failing run. -/
def failingCallDict (fr : RequestRecord) : Json :=
  .obj [ ("request_data", .obj
           [ ("method", .str fr.method)
           , ("url", .str fr.url)
           , ("headers", .obj (fr.request_headers.map (fun kv => (kv.1, Json.str kv.2))))
           , ("body", match fr.request_body with | some j => j | none => .null) ])
       , ("response_data", .obj
           [ ("status_code", .num fr.status_code)
           , ("headers", .obj (fr.response_headers.map (fun kv => (kv.1, Json.str kv.2))))
           , ("body", fr.response_body) ]) ]

/-- `save_raw_failure_log(test_result, commit_hash, run_id, timestamp)`
(logger.py): builds the structured payload and ALSO persists it — the
returned pair is the payload together with the file-system effects the
function performs (`os.makedirs("runs")`, `json.dump` to
`runs/{run_id}_raw.json`, and the confirmation print). -/
def save_raw_failure_log (test_result : TestRunResult)
    (commit_hash run_id timestamp : String) : Json × List LogEffect :=
  let result_fields : List (String × Json) :=
    if test_result.success then
      [ ("status", .str "passed")
      , ("request_history", .arr (test_result.request_history.map record_to_dict)) ]
    else
      [ ("status", .str "failed")
      , ("test_name", .str (match test_result.failure with
          | some f => f.test_name
          | none => "unknown"))
      , ("failure_reason", .str (match test_result.failure with
          | some f => f.reason
          | none => "unknown"))
      , ("request_history", .arr (test_result.request_history.map record_to_dict)) ]
      ++ (match test_result.failure with
          | some f => [("failing_call", failingCallDict f.failed_record)]
          | none => [])
  let path := "runs/" ++ run_id ++ "_raw.json"
  let payload := Json.obj
    ([ ("run_id", .str run_id)
     , ("timestamp", .str timestamp)
     , ("commit_hash", .str commit_hash) ] ++ result_fields)
  (payload,
   [ .makedirs "runs"
   , .writeJson path payload
   , .printLine ("[Logger] Raw failure log saved: " ++ path) ])

/-- The key list of a JSON object. -/
def jKeys (j : Json) : List String :=
  match j with
  | .obj fields => fields.map Prod.fst
  | _ => []

theorem C8_builder_performs_io_counterexample :
    ¬ ((save_raw_failure_log { success := true, request_history := [], failure := none }
        "c0" "r0" "t0").2 = []) := by
  simp [save_raw_failure_log]

/-- C8 (amended): the failure log builder is deterministic in its four
arguments — the payload carries exactly the metadata passed in
(`run_id`, `timestamp`, `commit_hash`) followed by the result fields
derived from the `TestRunResult`, with no hidden timestamp — but it is
not free of I/O: it itself creates `runs/`, writes the payload to
`runs/{run_id}_raw.json` and prints a confirmation, rather than leaving
persistence to the orchestrator. -/
theorem C8_builder_deterministic_but_persists (tr : TestRunResult)
    (commit_hash run_id timestamp : String) :
    jGet (save_raw_failure_log tr commit_hash run_id timestamp).1 "run_id" =
      some (.str run_id) ∧
    jGet (save_raw_failure_log tr commit_hash run_id timestamp).1 "timestamp" =
      some (.str timestamp) ∧
    jGet (save_raw_failure_log tr commit_hash run_id timestamp).1 "commit_hash" =
      some (.str commit_hash) ∧
    jKeys (save_raw_failure_log tr commit_hash run_id timestamp).1 =
      ["run_id", "timestamp", "commit_hash"] ++
        (if tr.success then ["status", "request_history"]
         else ["status", "test_name", "failure_reason", "request_history"] ++
           (match tr.failure with | some _ => ["failing_call"] | none => [])) ∧
    (save_raw_failure_log tr commit_hash run_id timestamp).2 =
      [ .makedirs "runs"
      , .writeJson ("runs/" ++ run_id ++ "_raw.json")
          (save_raw_failure_log tr commit_hash run_id timestamp).1
      , .printLine ("[Logger] Raw failure log saved: " ++ ("runs/" ++ run_id ++ "_raw.json")) ] := by
  refine ⟨?_, ?_, ?_, ?_, ?_⟩ <;>
    cases htr : tr.success <;>
      cases hfl : tr.failure <;>
        simp [save_raw_failure_log, jGet, jKeys, htr, hfl, List.lookup]

/-! ## `json.loads` (used by `list_run_history`) -/

def chQuote : Char := Char.ofNat 34

def chBackslash : Char := Char.ofNat 92

def chLBrace : Char := Char.ofNat 123

def chRBrace : Char := Char.ofNat 125

def chLBracket : Char := Char.ofNat 91

def chRBracket : Char := Char.ofNat 93

def chComma : Char := Char.ofNat 44

def chColon : Char := Char.ofNat 58

def chMinus : Char := Char.ofNat 45

def isWsChar (c : Char) : Bool :=
  c = Char.ofNat 32 || c = Char.ofNat 9 || c = Char.ofNat 10 || c = Char.ofNat 13

def skipWs : List Char → List Char
  | [] => []
  | c :: cs => if isWsChar c then skipWs cs else c :: cs

def digitsToNat (ds : List Char) : Nat :=
  ds.foldl (fun acc c => acc * 10 + (c.toNat - 48)) 0

def parseDigits (cs : List Char) : Option (Nat × List Char) :=
  let ds := cs.takeWhile Char.isDigit
  if ds.isEmpty then none else some (digitsToNat ds, cs.drop ds.length)

def hexVal (c : Char) : Option Nat :=
  if c.toNat ≥ 48 ∧ c.toNat ≤ 57 then some (c.toNat - 48)
  else if c.toNat ≥ 97 ∧ c.toNat ≤ 102 then some (c.toNat - 87)
  else if c.toNat ≥ 65 ∧ c.toNat ≤ 70 then some (c.toNat - 55)
  else none

def parseHex4 : List Char → Option (Nat × List Char)
  | a :: b :: c :: d :: rest =>
    match hexVal a, hexVal b, hexVal c, hexVal d with
    | some va, some vb, some vc, some vd =>
      some (va * 4096 + vb * 256 + vc * 16 + vd, rest)
    | _, _, _, _ => none
  | _ => none

def escDecode (c : Char) : Option Char :=
  if c = chQuote then some chQuote
  else if c = chBackslash then some chBackslash
  else if c = Char.ofNat 47 then some (Char.ofNat 47)
  else if c = Char.ofNat 98 then some (Char.ofNat 8)
  else if c = Char.ofNat 102 then some (Char.ofNat 12)
  else if c = Char.ofNat 110 then some (Char.ofNat 10)
  else if c = Char.ofNat 114 then some (Char.ofNat 13)
  else if c = Char.ofNat 116 then some (Char.ofNat 9)
  else none

def parseStrChars : Nat → List Char → Option (List Char × List Char)
  | 0, _ => none
  | _ + 1, [] => none
  | fuel + 1, c :: cs =>
    if c = chQuote then some ([], cs)
    else if c = chBackslash then
      match cs with
      | [] => none
      | e :: cs2 =>
        if e = Char.ofNat 117 then
          match parseHex4 cs2 with
          | some (n, cs3) =>
            match parseStrChars fuel cs3 with
            | some (out, rest) => some (Char.ofNat n :: out, rest)
            | none => none
          | none => none
        else
          match escDecode e with
          | some d =>
            match parseStrChars fuel cs2 with
            | some (out, rest) => some (d :: out, rest)
            | none => none
          | none => none
    else
      match parseStrChars fuel cs with
      | some (out, rest) => some (c :: out, rest)
      | none => none

/-- Parse the body of a string literal (the opening quote already
consumed); the fuel is its length, which each step strictly consumes. -/
def parseStringLit (cs : List Char) : Option (String × List Char) :=
  match parseStrChars (cs.length + 1) cs with
  | some (out, rest) => some (⟨out⟩, rest)
  | none => none

mutual

def parseJsonVal : Nat → List Char → Option (Json × List Char)
  | 0, _ => none
  | fuel + 1, cs0 =>
    match skipWs cs0 with
    | [] => none
    | c :: rest =>
      if c = chQuote then
        match parseStringLit rest with
        | some (s, rest2) => some (.str s, rest2)
        | none => none
      else if c = Char.ofNat 116 then
        if rest.take 3 = [Char.ofNat 114, Char.ofNat 117, Char.ofNat 101] then
          some (.bool true, rest.drop 3)
        else none
      else if c = Char.ofNat 102 then
        if rest.take 4 = [Char.ofNat 97, Char.ofNat 108, Char.ofNat 115, Char.ofNat 101] then
          some (.bool false, rest.drop 4)
        else none
      else if c = Char.ofNat 110 then
        if rest.take 3 = [Char.ofNat 117, Char.ofNat 108, Char.ofNat 108] then
          some (.null, rest.drop 3)
        else none
      else if c = chMinus then
        match parseDigits rest with
        | some (n, rest2) => some (.num (-(n : Int)), rest2)
        | none => none
      else if c.isDigit then
        match parseDigits (c :: rest) with
        | some (n, rest2) => some (.num (n : Int), rest2)
        | none => none
      else if c = chLBracket then
        match skipWs rest with
        | [] => none
        | d :: rest2 =>
          if d = chRBracket then some (.arr [], rest2)
          else
            match parseArrItems fuel (d :: rest2) with
            | some (vs, rest3) => some (.arr vs, rest3)
            | none => none
      else if c = chLBrace then
        match skipWs rest with
        | [] => none
        | d :: rest2 =>
          if d = chRBrace then some (.obj [], rest2)
          else
            match parseObjItems fuel (d :: rest2) with
            | some (fs, rest3) => some (.obj fs, rest3)
            | none => none
      else none

def parseArrItems : Nat → List Char → Option (List Json × List Char)
  | 0, _ => none
  | fuel + 1, cs =>
    match parseJsonVal fuel cs with
    | none => none
    | some (v, cs1) =>
      match skipWs cs1 with
      | [] => none
      | c :: cs2 =>
        if c = chComma then
          match parseArrItems fuel cs2 with
          | some (vs, rest) => some (v :: vs, rest)
          | none => none
        else if c = chRBracket then some ([v], cs2)
        else none

def parseObjItems : Nat → List Char → Option (List (String × Json) × List Char)
  | 0, _ => none
  | fuel + 1, cs =>
    match skipWs cs with
    | [] => none
    | c :: cs1 =>
      if c = chQuote then
        match parseStringLit cs1 with
        | some (k, cs2) =>
          match skipWs cs2 with
          | [] => none
          | d :: cs3 =>
            if d = chColon then
              match parseJsonVal fuel cs3 with
              | some (v, cs4) =>
                match skipWs cs4 with
                | [] => none
                | e2 :: cs5 =>
                  if e2 = chComma then
                    match parseObjItems fuel cs5 with
                    | some (fs, rest) => some ((k, v) :: fs, rest)
                    | none => none
                  else if e2 = chRBrace then some ([(k, v)], cs5)
                  else none
              | none => none
            else none
        | none => none
      else none

end

/-- `json.loads(s)`: parse one JSON value and require only whitespace
after it. -/
def jsonLoads (s : String) : Option Json :=
  match parseJsonVal (s.data.length + 1) s.data with
  | some (j, rest) => if skipWs rest = [] then some j else none
  | none => none

/-! ## Key-value wrapper with in-memory fallback (redis_client.py) -/

/-- The state of a `VerifyPulseRedis` instance: the fallback flag, the
in-memory dict, and whether a backend client object is attached
(`self.client is not None` and truthy). -/
structure VerifyPulseRedis where
  use_memory : Bool
  store : List (String × String)
  has_client : Bool

/-- Python dict assignment `d[k] = v`: update in place, else append. -/
def dictSet : List (String × String) → String → String → List (String × String)
  | [], k, v => [(k, v)]
  | (k2, v2) :: rest, k, v =>
    if k2 = k then (k, v) :: rest else (k2, v2) :: dictSet rest k v

/-- Python `d.get(k)`. -/
def dictGet (store : List (String × String)) (k : String) : Option String :=
  store.lookup k

/-- Python `list(d.keys())` (insertion order). -/
def dictKeys (store : List (String × String)) : List String :=
  store.map Prod.fst

/-- `VerifyPulseRedis.__init__` on the branch where no REDIS_URL is
configured: in-memory store from the start, no client attached. -/
def redisInitNoUrl : VerifyPulseRedis :=
  { use_memory := true, store := [], has_client := false }

/-- `VerifyPulseRedis.set(key, value)`.  The `Except` argument is what
the backend `client.set` call would do (return or raise); the memory
branch never consults it. -/
def VerifyPulseRedis.set (st : VerifyPulseRedis) (key value : String)
    (backend : Except String Unit) : VerifyPulseRedis :=
  if st.use_memory then { st with store := dictSet st.store key value }
  else if st.has_client then
    match backend with
    | .ok _ => st
    | .error _ => { st with use_memory := true, store := dictSet st.store key value }
  else st

/-- `VerifyPulseRedis.get(key)`: returns the value and the (possibly
fallen-back) instance state.  The backend branch maps a falsy result
(`None` or `""`) to `None`. -/
def VerifyPulseRedis.get (st : VerifyPulseRedis) (key : String)
    (backend : Except String (Option String)) : Option String × VerifyPulseRedis :=
  if st.use_memory then (dictGet st.store key, st)
  else if st.has_client then
    match backend with
    | .ok r =>
      ((match r with
        | some s => if s = "" then none else some s
        | none => none), st)
    | .error _ => (dictGet st.store key, { st with use_memory := true })
  else (none, st)

/-- `VerifyPulseRedis.store_requirement(requirement_id, text)`. -/
def VerifyPulseRedis.store_requirement (st : VerifyPulseRedis) (requirement_id text : String)
    (backend : Except String Unit) : VerifyPulseRedis :=
  if st.use_memory then { st with store := dictSet st.store requirement_id text }
  else if st.has_client then
    match backend with
    | .ok _ => st
    | .error _ => { st with use_memory := true, store := dictSet st.store requirement_id text }
  else st

/-- `VerifyPulseRedis.get_requirement(requirement_id)`. -/
def VerifyPulseRedis.get_requirement (st : VerifyPulseRedis) (requirement_id : String)
    (backend : Except String (Option String)) : Option String × VerifyPulseRedis :=
  if st.use_memory then (dictGet st.store requirement_id, st)
  else if st.has_client then
    match backend with
    | .ok r =>
      ((match r with
        | some s => if s = "" then none else some s
        | none => none), st)
    | .error _ => (dictGet st.store requirement_id, { st with use_memory := true })
  else (none, st)

/-- The in-memory pattern matching of `keys`: `"*"` returns everything,
a trailing-`*` pattern is a prefix match, anything else a substring
match. -/
def memKeysMatch (store : List (String × String)) (pattern : String) : List String :=
  if pattern = "*" then dictKeys store
  else if pyEndsWith pattern "*" then
    (dictKeys store).filter fun k => pyStartsWith k ⟨pattern.data.dropLast⟩
  else (dictKeys store).filter fun k => strContains k pattern

/-- `VerifyPulseRedis.keys(pattern)`. -/
def VerifyPulseRedis.keys (st : VerifyPulseRedis) (pattern : String)
    (backend : Except String (List String)) : List String × VerifyPulseRedis :=
  if st.use_memory then (memKeysMatch st.store pattern, st)
  else if st.has_client then
    match backend with
    | .ok l => (l, st)
    | .error _ => (memKeysMatch st.store pattern, { st with use_memory := true })
  else ([], st)

/-- `VerifyPulseRedis.save_run_result(run_id, payload)`: stores the
JSON serialization under `run:{run_id}` via `self.set` (which itself
never raises, so the outer try/except never fires). -/
def VerifyPulseRedis.save_run_result (st : VerifyPulseRedis) (run_id : String)
    (payload : Json) (backend : Except String Unit) : VerifyPulseRedis :=
  st.set ("run:" ++ run_id) (jsonDumps true payload) backend

/-- The loop body of `list_run_history`: get each key, skip falsy raw
values, parse, skip corrupted entries. -/
def list_run_history_go (bget : String → Except String (Option String)) :
    List String → VerifyPulseRedis → List Json × VerifyPulseRedis
  | [], st => ([], st)
  | k :: ks, st =>
    let step := st.get k (bget k)
    match step.1 with
    | none => list_run_history_go bget ks step.2
    | some s =>
      if s = "" then list_run_history_go bget ks step.2
      else
        match jsonLoads s with
        | some j =>
          let rest := list_run_history_go bget ks step.2
          (j :: rest.1, rest.2)
        | none => list_run_history_go bget ks step.2

/-- `VerifyPulseRedis.list_run_history()`. -/
def VerifyPulseRedis.list_run_history (st : VerifyPulseRedis)
    (bkeys : Except String (List String))
    (bget : String → Except String (Option String)) : List Json × VerifyPulseRedis :=
  let ks := st.keys "run:*" bkeys
  list_run_history_go bget ks.1 ks.2

theorem pyStartsWith_append (p s : String) : pyStartsWith (p ++ s) p = true := by
  simp only [pyStartsWith, String.data_append]
  simp [List.isPrefixOf_iff_prefix]

theorem dictGet_dictSet (store : List (String × String)) (k v : String) :
    dictGet (dictSet store k v) k = some v := by
  induction store with
  | nil => simp [dictSet, dictGet, List.lookup]
  | cons kv rest ih =>
    obtain ⟨k2, v2⟩ := kv
    by_cases hk : k2 = k
    · subst hk
      simp [dictSet, dictGet, List.lookup]
    · have hbeq : (k == k2) = false := by
        simp only [beq_eq_false_iff_ne]
        exact fun he => hk he.symm
      simp only [dictSet, if_neg hk, dictGet, List.lookup, hbeq]
      exact ih

theorem list_run_history_go_single (bget : String → Except String (Option String))
    (k v : String) (st : VerifyPulseRedis) (pj : Json)
    (hmem : st.use_memory = true) (hstore : dictGet st.store k = some v)
    (hv : ¬(v = "")) (hp : jsonLoads v = some pj) :
    list_run_history_go bget [k] st = ([pj], st) := by
  have hget : st.get k (bget k) = (some v, st) := by
    simp only [VerifyPulseRedis.get]
    rw [if_pos hmem, hstore]
  simp only [list_run_history_go, hget]
  rw [if_neg hv, hp]

theorem keys_memory (st : VerifyPulseRedis) (pattern : String)
    (backend : Except String (List String)) (hmem : st.use_memory = true) :
    st.keys pattern backend = (memKeysMatch st.store pattern, st) := by
  simp only [VerifyPulseRedis.keys]
  rw [if_pos hmem]

/-- C9: with no key-value backend configured, the store operates
against the in-memory fallback: `list_run_history` is empty before any
write, and after `save_run_result(run_id, payload)` it returns exactly
the one-element list containing that payload (given that the payload's
JSON serialization parses back to itself, which the witness checks for
a concrete payload). -/
theorem C9_memory_store_roundtrip (run_id : String) (payload : Json)
    (bset : Except String Unit)
    (bkeys bkeys2 : Except String (List String))
    (bget bget2 : String → Except String (Option String)) :
    (redisInitNoUrl.list_run_history bkeys bget).1 = [] ∧
    (jsonLoads (jsonDumps true payload) = some payload →
      ((redisInitNoUrl.save_run_result run_id payload bset).list_run_history bkeys2 bget2).1
        = [payload] ∧
      payload ∈ ((redisInitNoUrl.save_run_result run_id payload bset).list_run_history
        bkeys2 bget2).1) := by
  constructor
  · rfl
  · intro h
    have hval : ¬(jsonDumps true payload = "") := by
      intro he
      rw [he] at h
      exact Option.noConfusion h
    have hst1 : redisInitNoUrl.save_run_result run_id payload bset =
        { use_memory := true
          store := [("run:" ++ run_id, jsonDumps true payload)]
          has_client := false } := rfl
    have hmatch : memKeysMatch [("run:" ++ run_id, jsonDumps true payload)] "run:*" =
        ["run:" ++ run_id] := by
      simp only [memKeysMatch, dictKeys]
      rw [if_neg (by decide), if_pos (by decide)]
      have hdrop : (⟨("run:*").data.dropLast⟩ : String) = "run:" := by decide
      rw [hdrop]
      simp [List.filter, pyStartsWith_append]
    have hmain : ((redisInitNoUrl.save_run_result run_id payload bset).list_run_history
        bkeys2 bget2).1 = [payload] := by
      rw [hst1]
      simp only [VerifyPulseRedis.list_run_history]
      rw [keys_memory _ _ _ rfl, hmatch,
        list_run_history_go_single bget2 ("run:" ++ run_id) (jsonDumps true payload) _ payload
          rfl (by simp [dictGet, List.lookup]) hval h]
    exact ⟨hmain, by rw [hmain]; exact List.mem_singleton.mpr rfl⟩

/-- A JSON payload for which the serialize/parse round trip is checked
concretely by the witness. -/
def c9Payload : Json :=
  .obj [ ("success", .bool false)
       , ("collection_id", .str "col-1")
       , ("failures", .arr [.str "login_requirements"]) ]

theorem C9_memory_store_roundtrip_witness :
    (redisInitNoUrl.list_run_history (.ok []) (fun _ => .ok none)).1 = [] ∧
    ((redisInitNoUrl.save_run_result "run-1" c9Payload (.ok ())).list_run_history
      (.ok []) (fun _ => .ok none)).1 = [c9Payload] := by
  have h := C9_memory_store_roundtrip "run-1" c9Payload (.ok ()) (.ok []) (.ok [])
    (fun _ => .ok none) (fun _ => .ok none)
  exact ⟨h.1, (h.2 (by rfl)).1⟩

/-- C10: no public operation of the key-value wrapper propagates a
backend exception — every backend-error outcome is absorbed and the
operation completes against the in-memory store — and the fallback is
sticky: a backend failure mid-call permanently switches the instance to
the in-memory store, so a `set` whose backend write failed is still
recorded and a subsequent `get` returns the value, and once in memory
mode every operation stays in memory mode. -/
theorem C10_sticky_memory_fallback (st : VerifyPulseRedis)
    (key value text pattern e : String)
    (bs : Except String Unit) (bg : Except String (Option String))
    (bk : Except String (List String)) :
    (st.use_memory = false → st.has_client = true →
      (st.set key value (.error e)).use_memory = true ∧
      dictGet (st.set key value (.error e)).store key = some value ∧
      ∀ b2, ((st.set key value (.error e)).get key b2).1 = some value) ∧
    (st.use_memory = false → st.has_client = true →
      (st.get key (.error e)).1 = dictGet st.store key ∧
      (st.get key (.error e)).2.use_memory = true ∧
      (st.keys pattern (.error e)).1 = memKeysMatch st.store pattern ∧
      (st.keys pattern (.error e)).2.use_memory = true ∧
      (st.store_requirement key text (.error e)).use_memory = true ∧
      dictGet (st.store_requirement key text (.error e)).store key = some text ∧
      (st.get_requirement key (.error e)).1 = dictGet st.store key ∧
      (st.get_requirement key (.error e)).2.use_memory = true) ∧
    (st.use_memory = true →
      (st.set key value bs).use_memory = true ∧
      (st.get key bg).2.use_memory = true ∧
      (st.keys pattern bk).2.use_memory = true ∧
      (st.store_requirement key text bs).use_memory = true ∧
      (st.get_requirement key bg).2.use_memory = true) := by
  refine ⟨?_, ?_, ?_⟩
  · intro hmem hcl
    have hset : st.set key value (.error e) =
        { st with use_memory := true, store := dictSet st.store key value } := by
      simp only [VerifyPulseRedis.set]
      rw [if_neg (by simp [hmem]), if_pos hcl]
    refine ⟨by rw [hset], by rw [hset]; exact dictGet_dictSet st.store key value, ?_⟩
    intro b2
    rw [hset]
    simp [VerifyPulseRedis.get, dictGet_dictSet]
  · intro hmem hcl
    refine ⟨?_, ?_, ?_, ?_, ?_, ?_, ?_, ?_⟩ <;>
      simp [VerifyPulseRedis.get, VerifyPulseRedis.keys,
        VerifyPulseRedis.store_requirement, VerifyPulseRedis.get_requirement,
        hmem, hcl, dictGet_dictSet]
  · intro hmem
    refine ⟨?_, ?_, ?_, ?_, ?_⟩ <;>
      simp [VerifyPulseRedis.set, VerifyPulseRedis.get, VerifyPulseRedis.keys,
        VerifyPulseRedis.store_requirement, VerifyPulseRedis.get_requirement, hmem]

theorem C10_sticky_memory_fallback_witness :
    ((⟨false, [], true⟩ : VerifyPulseRedis).set "k1" "v1" (.error "boom")).use_memory = true ∧
    dictGet ((⟨false, [], true⟩ : VerifyPulseRedis).set "k1" "v1" (.error "boom")).store "k1" =
      some "v1" ∧
    (((⟨false, [], true⟩ : VerifyPulseRedis).set "k1" "v1" (.error "boom")).get "k1"
      (.ok (some "stale"))).1 = some "v1" ∧
    ((⟨true, [("a", "b")], false⟩ : VerifyPulseRedis).keys "*" (.error "down")).2.use_memory =
      true := by
  have h1 := (C10_sticky_memory_fallback ⟨false, [], true⟩ "k1" "v1" "t" "*" "boom"
    (.ok ()) (.ok none) (.ok [])).1 rfl rfl
  have h2 := (C10_sticky_memory_fallback ⟨true, [("a", "b")], false⟩ "k" "v" "t" "*" "down"
    (.ok ()) (.ok none) (.error "down")).2.2 rfl
  exact ⟨h1.1, h1.2.1, h1.2.2 (.ok (some "stale")), h2.2.2.1⟩
